import Mathlib

/-!
Shallow embedding of the benchmark-results analyzer
(`tests/claude_code_benchmarks/analyze_results.py`).

Records are Python dictionaries; numeric fields that may be absent on
FAIL records are modelled as `Option` values, and reading such a field
(`r['duration_ms']` in Python, which raises `KeyError` when missing) is
modelled in the `Except String` monad.  Python floats are modelled as
rationals; the arithmetic of this script stays in ranges where float
and rational arithmetic agree on the claimed figures, and the spec
mandates no rounding beyond display formatting.
-/

deriving instance DecidableEq for Except

/-- One benchmark record (a JSON object of the results file). -/
structure BenchmarkResult where
  test_id : String
  test_name : String
  category : String
  complexity : String
  status : String
  duration_ms : Option ℚ
  output_size_bytes : Option ℕ
  output_lines : Option ℕ
deriving DecidableEq

/-- Reading a dictionary key: present fields yield the value, absent
fields raise (`KeyError` in Python). -/
def getField {α : Type} (name : String) : Option α → Except String α
  | some v => .ok v
  | none => .error ("KeyError: " ++ name)

/-- Left-to-right effectful map, the model of a Python list
comprehension whose element expression may raise. -/
def mapE {α β : Type} (f : α → Except String β) : List α → Except String (List β)
  | [] => .ok []
  | x :: xs =>
    match f x with
    | .error e => .error e
    | .ok y =>
      match mapE f xs with
      | .error e => .error e
      | .ok ys => .ok (y :: ys)

/-- The passed subset: `[r for r in results if r.status == PASS]`. -/
def passedOf (results : List BenchmarkResult) : List BenchmarkResult :=
  results.filter (fun r => r.status == "PASS")

/-- `min(l)` of a nonempty Python list, as a fold of binary `min`. -/
def listMin : List ℚ → ℚ
  | [] => 0
  | x :: xs => xs.foldl min x

/-- `max(l)` of a nonempty Python list, as a fold of binary `max`. -/
def listMax : List ℚ → ℚ
  | [] => 0
  | x :: xs => xs.foldl max x

/-- Shape of the dictionary returned by `calculate_summary_stats`. -/
structure SummaryStats where
  total_tests : ℕ
  passed : ℕ
  failed : ℕ
  success_rate : ℚ
  avg_duration_ms : ℚ
  min_duration_ms : ℚ
  max_duration_ms : ℚ
  avg_output_size_bytes : ℚ
  total_output_size_bytes : ℕ
deriving DecidableEq

/-- `calculate_summary_stats` (analyze_results.py, lines 30-49). -/
def calculate_summary_stats (results : List BenchmarkResult) :
    Except String SummaryStats := do
  let total_tests := results.length
  let passed_tests := (passedOf results).length
  let failed_tests := total_tests - passed_tests
  let durations ← mapE (fun r => getField "duration_ms" r.duration_ms) (passedOf results)
  let output_sizes : List ℕ ← mapE (fun r => getField "output_size_bytes" r.output_size_bytes) (passedOf results)
  return {
    total_tests := total_tests
    passed := passed_tests
    failed := failed_tests
    success_rate := if total_tests > 0 then (passed_tests : ℚ) / (total_tests : ℚ) * 100 else 0
    avg_duration_ms := if durations.isEmpty then 0 else durations.sum / (durations.length : ℚ)
    min_duration_ms := if durations.isEmpty then 0 else listMin durations
    max_duration_ms := if durations.isEmpty then 0 else listMax durations
    avg_output_size_bytes :=
      if output_sizes.isEmpty then 0 else (output_sizes.sum : ℚ) / (output_sizes.length : ℚ)
    total_output_size_bytes := output_sizes.sum }

/-- Shape of the dictionary returned by `calculate_category_stats`. -/
structure CategoryStats where
  total_tests : ℕ
  passed : ℕ
  success_rate : ℚ
  avg_duration_ms : ℚ
  avg_output_size_bytes : ℚ
deriving DecidableEq

/-- `calculate_category_stats` (analyze_results.py, lines 68-81). -/
def calculate_category_stats (results : List BenchmarkResult) :
    Except String CategoryStats := do
  let total := results.length
  let passed := (passedOf results).length
  let durations ← mapE (fun r => getField "duration_ms" r.duration_ms) (passedOf results)
  let output_sizes : List ℕ ← mapE (fun r => getField "output_size_bytes" r.output_size_bytes) (passedOf results)
  return {
    total_tests := total
    passed := passed
    success_rate := if total > 0 then (passed : ℚ) / (total : ℚ) * 100 else 0
    avg_duration_ms := if durations.isEmpty then 0 else durations.sum / (durations.length : ℚ)
    avg_output_size_bytes :=
      if output_sizes.isEmpty then 0 else (output_sizes.sum : ℚ) / (output_sizes.length : ℚ) }

/-- First-occurrence key accumulation of a Python `dict` built by
successive insertion (`defaultdict(list)`). -/
def insertKey (ks : List String) (c : String) : List String :=
  if c ∈ ks then ks else ks ++ [c]

/-- The keys of the grouping dictionary, in insertion order. -/
def dictKeys (cs : List String) : List String :=
  cs.foldl insertKey []

/-- `group_by_category` (analyze_results.py, lines 52-57): an ordered
dictionary from category to records of that category, in insertion
order. -/
def group_by_category (results : List BenchmarkResult) :
    List (String × List BenchmarkResult) :=
  (dictKeys (results.map (fun r => r.category))).map
    (fun c => (c, results.filter (fun r => r.category == c)))

/-- `group_by_complexity` (analyze_results.py, lines 60-65). -/
def group_by_complexity (results : List BenchmarkResult) :
    List (String × List BenchmarkResult) :=
  (dictKeys (results.map (fun r => r.complexity))).map
    (fun c => (c, results.filter (fun r => r.complexity == c)))

/-- The fixed tier order of `print_complexity_breakdown`. -/
def complexity_order : List String := ["Simple", "Medium", "Complex"]

/-- `print_complexity_breakdown` (analyze_results.py, lines 120-139):
iterates the fixed tier order, skips tiers with no records, and
computes per-group statistics; modelled as the ordered association
list it renders. -/
def print_complexity_breakdown (results : List BenchmarkResult) :
    Except String (List (String × CategoryStats)) :=
  mapE (fun c =>
      Except.map (fun s => (c, s))
        (calculate_category_stats (results.filter (fun r => r.complexity == c))))
    (complexity_order.filter
      (fun c => ¬(results.filter (fun r => r.complexity == c)).isEmpty))

/-! ### Token-estimation models -/

/-- 1 token is approximately 4 characters. -/
def CHARS_PER_TOKEN : ℚ := 4

/-- Fixed token cost per tool invocation. -/
def TOOL_CALL_OVERHEAD : ℚ := 50

/-- `complexity_multipliers.get(complexity, 2.0)`: the dictionary
lookup with default used by both estimators. -/
def complexity_multiplier (c : String) : ℚ :=
  if c == "Simple" then 15 / 10
  else if c == "Medium" then 25 / 10
  else if c == "Complex" then 5
  else 2

/-- The baseline-call estimate: the loop over `complexity_groups.items()`
accumulating `len(group) * multiplier`. -/
def builtin_calls_of (groups : List (String × List BenchmarkResult)) : ℚ :=
  (groups.map (fun g => (g.2.length : ℚ) * complexity_multiplier g.1)).sum

/-- The quantities printed by `estimate_token_savings`. -/
structure ToolOutputReport where
  rfx_tool_calls : ℕ
  rfx_output_tokens : ℚ
  rfx_overhead_tokens : ℚ
  rfx_total_tokens : ℚ
  builtin_tool_calls : ℚ
  builtin_output_tokens : ℚ
  builtin_overhead_tokens : ℚ
  builtin_total_tokens : ℚ
  tool_output_savings : ℚ
  tool_output_savings_pct : ℚ
deriving DecidableEq

/-- `estimate_token_savings` (analyze_results.py, lines 181-248), the
tool-output-only model.  Note `rfx_tool_calls = len(results)` counts
all records, and the complexity grouping for the baseline-call
estimate also runs over all records. -/
def estimate_token_savings (results : List BenchmarkResult) :
    Except String ToolOutputReport := do
  let rfx_tool_calls := results.length
  let outSizes : List ℕ ← mapE (fun r => getField "output_size_bytes" r.output_size_bytes) (passedOf results)
  let rfx_output_chars := outSizes.sum
  let rfx_output_tokens : ℚ := (rfx_output_chars : ℚ) / CHARS_PER_TOKEN
  let rfx_overhead_tokens : ℚ := (rfx_tool_calls : ℚ) * TOOL_CALL_OVERHEAD
  let rfx_total_tokens := rfx_output_tokens + rfx_overhead_tokens
  let builtin_tool_calls := builtin_calls_of (group_by_complexity results)
  let builtin_output_chars : ℚ := (rfx_output_chars : ℚ) * (18 / 10)
  let builtin_output_tokens := builtin_output_chars / CHARS_PER_TOKEN
  let builtin_overhead_tokens := builtin_tool_calls * TOOL_CALL_OVERHEAD
  let builtin_total_tokens := builtin_output_tokens + builtin_overhead_tokens
  let tool_output_savings := builtin_total_tokens - rfx_total_tokens
  let tool_output_savings_pct :=
    if builtin_total_tokens > 0 then tool_output_savings / builtin_total_tokens * 100 else 0
  return {
    rfx_tool_calls := rfx_tool_calls
    rfx_output_tokens := rfx_output_tokens
    rfx_overhead_tokens := rfx_overhead_tokens
    rfx_total_tokens := rfx_total_tokens
    builtin_tool_calls := builtin_tool_calls
    builtin_output_tokens := builtin_output_tokens
    builtin_overhead_tokens := builtin_overhead_tokens
    builtin_total_tokens := builtin_total_tokens
    tool_output_savings := tool_output_savings
    tool_output_savings_pct := tool_output_savings_pct }

/-- Per-turn constant of the full-conversation model. -/
def USER_PROMPT_TOKENS : ℚ := 25

/-- Per-turn constant of the full-conversation model. -/
def CLAUDE_REASONING_TOKENS : ℚ := 120

/-- Per-turn constant of the full-conversation model. -/
def CLAUDE_RESPONSE_TOKENS : ℚ := 80

/-- The quantities printed by `estimate_realistic_token_savings`. -/
structure FullConversationReport where
  rfx_tool_calls : ℕ
  rfx_user_tokens : ℚ
  rfx_claude_reasoning : ℚ
  rfx_tool_output_tokens : ℚ
  rfx_tool_overhead : ℚ
  rfx_claude_response : ℚ
  rfx_total_tokens : ℚ
  builtin_tool_calls : ℚ
  builtin_user_tokens : ℚ
  builtin_claude_reasoning : ℚ
  builtin_tool_output : ℚ
  builtin_tool_overhead : ℚ
  builtin_claude_response : ℚ
  builtin_total_tokens : ℚ
  total_savings : ℚ
  savings_pct : ℚ
deriving DecidableEq

/-- `estimate_realistic_token_savings` (analyze_results.py, lines
251-344), the full-conversation model.  Every input access goes
through the passed subset. -/
def estimate_realistic_token_savings (results : List BenchmarkResult) :
    Except String FullConversationReport := do
  let rfx_tool_calls := (passedOf results).length
  let outSizes : List ℕ ← mapE (fun r => getField "output_size_bytes" r.output_size_bytes) (passedOf results)
  let rfx_output_chars := outSizes.sum
  let rfx_tool_output_tokens : ℚ := (rfx_output_chars : ℚ) / CHARS_PER_TOKEN
  let rfx_tool_overhead : ℚ := (rfx_tool_calls : ℚ) * TOOL_CALL_OVERHEAD
  let rfx_user_tokens : ℚ := (rfx_tool_calls : ℚ) * USER_PROMPT_TOKENS
  let rfx_claude_reasoning : ℚ := (rfx_tool_calls : ℚ) * CLAUDE_REASONING_TOKENS
  let rfx_claude_response : ℚ := (rfx_tool_calls : ℚ) * CLAUDE_RESPONSE_TOKENS
  let rfx_total_tokens := rfx_user_tokens + rfx_claude_reasoning +
    rfx_tool_output_tokens + rfx_tool_overhead + rfx_claude_response
  let builtin_tool_calls := builtin_calls_of (group_by_complexity (passedOf results))
  let builtin_output_chars : ℚ := (rfx_output_chars : ℚ) * (18 / 10)
  let builtin_tool_output := builtin_output_chars / CHARS_PER_TOKEN
  let builtin_tool_overhead := builtin_tool_calls * TOOL_CALL_OVERHEAD
  let builtin_user_tokens := (rfx_tool_calls : ℚ) * USER_PROMPT_TOKENS
  let builtin_claude_reasoning := (rfx_tool_calls : ℚ) * (CLAUDE_REASONING_TOKENS * (15 / 10))
  let builtin_claude_response := (rfx_tool_calls : ℚ) * (CLAUDE_RESPONSE_TOKENS * (12 / 10))
  let builtin_total_tokens := builtin_user_tokens + builtin_claude_reasoning +
    builtin_tool_output + builtin_tool_overhead + builtin_claude_response
  let total_savings := builtin_total_tokens - rfx_total_tokens
  let savings_pct :=
    if builtin_total_tokens > 0 then total_savings / builtin_total_tokens * 100 else 0
  return {
    rfx_tool_calls := rfx_tool_calls
    rfx_user_tokens := rfx_user_tokens
    rfx_claude_reasoning := rfx_claude_reasoning
    rfx_tool_output_tokens := rfx_tool_output_tokens
    rfx_tool_overhead := rfx_tool_overhead
    rfx_claude_response := rfx_claude_response
    rfx_total_tokens := rfx_total_tokens
    builtin_tool_calls := builtin_tool_calls
    builtin_user_tokens := builtin_user_tokens
    builtin_claude_reasoning := builtin_claude_reasoning
    builtin_tool_output := builtin_tool_output
    builtin_tool_overhead := builtin_tool_overhead
    builtin_claude_response := builtin_claude_response
    builtin_total_tokens := builtin_total_tokens
    total_savings := total_savings
    savings_pct := savings_pct }

/-- The numeric core of `plot_results` (analyze_results.py, lines
357-364): per-category average duration over passed records.  The
denominator `len([r for r in group if r.status == PASS])` is not
guarded, so a category with no passed records raises
`ZeroDivisionError`. -/
def plot_avg_durations (results : List BenchmarkResult) : Except String (List ℚ) :=
  mapE (fun g => do
      let ds ← mapE (fun r => getField "duration_ms" r.duration_ms) (passedOf g.2)
      let n := (passedOf g.2).length
      if n = 0 then Except.error "ZeroDivisionError: division by zero"
      else Except.ok (ds.sum / (n : ℚ)))
    (group_by_category results)

/-! ### Ranking (print_slowest_tests / print_largest_outputs) -/

/-- Position annotation of a Python list (`enumerate`), used to model
the stability of `sorted`. -/
def enumerate : ℕ → List BenchmarkResult → List (ℕ × BenchmarkResult)
  | _, [] => []
  | n, r :: rs => (n, r) :: enumerate (n + 1) rs

/-- The ordering used by `sorted(key=metric, reverse=True)`: larger
keys first, and equal keys keep their original relative position
(CPython's sort is stable). -/
def rankRel (a b : (ℕ × BenchmarkResult) × ℚ) : Prop :=
  b.2 < a.2 ∨ (a.2 = b.2 ∧ a.1.1 ≤ b.1.1)

instance rankRel_decidable : DecidableRel rankRel := fun a b => by
  unfold rankRel
  exact inferInstance

instance rankRel_total : IsTotal ((ℕ × BenchmarkResult) × ℚ) rankRel where
  total a b := by
    rcases lt_trichotomy a.2 b.2 with h | h | h
    · exact Or.inr (Or.inl h)
    · rcases le_total a.1.1 b.1.1 with h2 | h2
      · exact Or.inl (Or.inr ⟨h, h2⟩)
      · exact Or.inr (Or.inr ⟨h.symm, h2⟩)
    · exact Or.inl (Or.inl h)

instance rankRel_trans : IsTrans ((ℕ × BenchmarkResult) × ℚ) rankRel where
  trans a b c hab hbc := by
    rcases hab with h1 | ⟨h1e, h1i⟩
    · rcases hbc with h2 | ⟨h2e, h2i⟩
      · exact Or.inl (h2.trans h1)
      · exact Or.inl (h2e ▸ h1)
    · rcases hbc with h2 | ⟨h2e, h2i⟩
      · exact Or.inl (h1e ▸ h2)
      · exact Or.inr ⟨h1e.trans h2e, h1i.trans h2i⟩

/-- The ranking common to `print_slowest_tests` (lines 148-152) and
`print_largest_outputs` (lines 167-171):
`sorted([r for r in results if r.status == PASS], key=key,
reverse=True)[:top_n]`, with positions kept explicit and the computed
sort key attached to each element. -/
def rank_passed (key : BenchmarkResult → Option ℚ) (results : List BenchmarkResult)
    (top_n : ℕ) : Except String (List ((ℕ × BenchmarkResult) × ℚ)) :=
  match mapE (fun p => Except.map (fun k => (p, k)) (getField "sort key" (key p.2)))
      ((enumerate 0 results).filter (fun p => p.2.status == "PASS")) with
  | .error e => .error e
  | .ok keyed => .ok ((List.insertionSort rankRel keyed).take top_n)

/-! ### Sample inputs used by the scenario claims and witnesses -/

/-- Scenario record: PASS, 100 ms, 400 bytes, Simple. -/
def sampleR1 : BenchmarkResult :=
  { test_id := "T1", test_name := "simple lookup", category := "search",
    complexity := "Simple", status := "PASS",
    duration_ms := some 100, output_size_bytes := some 400, output_lines := some 10 }

/-- Scenario record: PASS, 300 ms, 1200 bytes, Complex. -/
def sampleR2 : BenchmarkResult :=
  { test_id := "T2", test_name := "deep query", category := "refactor",
    complexity := "Complex", status := "PASS",
    duration_ms := some 300, output_size_bytes := some 1200, output_lines := some 30 }

/-- Scenario record: FAIL, Medium, no numeric fields at all. -/
def sampleR3 : BenchmarkResult :=
  { test_id := "T3", test_name := "broken case", category := "search",
    complexity := "Medium", status := "FAIL",
    duration_ms := none, output_size_bytes := none, output_lines := none }

/-- The three-record scenario ResultSet of the spec. -/
def sampleRS : List BenchmarkResult := [sampleR1, sampleR2, sampleR3]

/-- A ResultSet holding a single FAIL record. -/
def failOnlyRS : List BenchmarkResult := [sampleR3]

/-- A record with a complexity outside the fixed tier set. -/
def exoticRec : BenchmarkResult :=
  { test_id := "T4", test_name := "odd tier", category := "misc",
    complexity := "Exotic", status := "FAIL",
    duration_ms := none, output_size_bytes := none, output_lines := none }

/-! ### Helper lemmas -/

/-- Filtering the passed subset twice is the same as filtering once. -/
theorem passedOf_idem (results : List BenchmarkResult) :
    passedOf (passedOf results) = passedOf results := by
  simp [passedOf, List.filter_filter]

/-- `ok` feeds its value to the continuation. -/
theorem except_bind_ok {α β : Type} (x : α) (f : α → Except String β) :
    (Except.ok x >>= f) = f x := rfl

/-- An error short-circuits the continuation. -/
theorem except_bind_error {α β : Type} (e : String) (f : α → Except String β) :
    ((Except.error e : Except String α) >>= f) = .error e := rfl

/-- Mapping over a success transforms the value. -/
theorem except_map_ok {α β : Type} (f : α → β) (x : α) :
    Except.map f (Except.ok x : Except String α) = .ok (f x) := rfl

/-- Mapping over an error keeps the error. -/
theorem except_map_error {α β : Type} (f : α → β) (e : String) :
    Except.map f (Except.error e : Except String α) = .error e := rfl

/-- A successful `mapE` relates input and output elementwise. -/
theorem mapE_forall₂ {α β : Type} {f : α → Except String β} :
    ∀ {l : List α} {l' : List β}, mapE f l = .ok l' →
      List.Forall₂ (fun x y => f x = .ok y) l l' := by
  intro l
  induction l with
  | nil =>
    intro l' h
    simp only [mapE, Except.ok.injEq] at h
    subst h
    exact .nil
  | cons x xs ih =>
    intro l' h
    simp only [mapE] at h
    cases hx : f x with
    | error e => rw [hx] at h; simp at h
    | ok y =>
      rw [hx] at h
      cases hxs : mapE f xs with
      | error e => rw [hxs] at h; simp at h
      | ok ys =>
        rw [hxs] at h
        simp only [Except.ok.injEq] at h
        subst h
        exact .cons hx (ih hxs)

/-- `mapE` succeeds when every element does. -/
theorem mapE_ok_of_forall {α β : Type} {f : α → Except String β} :
    ∀ {l : List α}, (∀ x ∈ l, ∃ y, f x = .ok y) → ∃ l', mapE f l = .ok l' := by
  intro l
  induction l with
  | nil => intro _; exact ⟨[], rfl⟩
  | cons x xs ih =>
    intro h
    obtain ⟨y, hy⟩ := h x (List.mem_cons_self x xs)
    obtain ⟨ys, hys⟩ := ih (fun z hz => h z (List.mem_cons_of_mem x hz))
    refine ⟨y :: ys, ?_⟩
    simp only [mapE]
    rw [hy, hys]

/-- Every element of the right list of a `Forall₂` is related to some
element of the left list. -/
theorem forall₂_mem_right {α β : Type} {R : α → β → Prop} :
    ∀ {l : List α} {l' : List β}, List.Forall₂ R l l' → ∀ y ∈ l', ∃ x ∈ l, R x y := by
  intro l l' h
  induction h with
  | nil => intro y hy; cases hy
  | cons hxy _ ih =>
    intro y hy
    rcases List.mem_cons.mp hy with h1 | h2
    · subst h1; exact ⟨_, List.mem_cons_self _ _, hxy⟩
    · obtain ⟨x, hx, hr⟩ := ih y h2
      exact ⟨x, List.mem_cons_of_mem _ hx, hr⟩

/-- Transport a pairwise property along a `Forall₂`. -/
theorem forall₂_pairwise {α β : Type} {R : α → β → Prop} {P : α → α → Prop}
    {Q : β → β → Prop}
    (hPQ : ∀ a a' b b', R a a' → R b b' → P a b → Q a' b') :
    ∀ {l : List α} {l' : List β}, List.Forall₂ R l l' → l.Pairwise P → l'.Pairwise Q := by
  intro l l' h
  induction h with
  | nil => intro _; exact .nil
  | cons hxy hrest ih =>
    intro hp
    rcases hp with _ | ⟨hhead, htail⟩
    refine .cons ?_ (ih htail)
    intro b' hb'
    obtain ⟨b, hb, hr⟩ := forall₂_mem_right hrest b' hb'
    exact hPQ _ _ _ _ hxy hr (hhead b hb)

/-- `enumerate` preserves length. -/
theorem enumerate_length : ∀ (n : ℕ) (rs : List BenchmarkResult),
    (enumerate n rs).length = rs.length := by
  intro n rs
  induction rs generalizing n with
  | nil => rfl
  | cons r rs ih => simp [enumerate, ih]

/-- The positions produced by `enumerate n` are at least `n`. -/
theorem enumerate_le_fst : ∀ (n : ℕ) (rs : List BenchmarkResult),
    ∀ p ∈ enumerate n rs, n ≤ p.1 := by
  intro n rs
  induction rs generalizing n with
  | nil => intro p hp; cases hp
  | cons r rs ih =>
    intro p hp
    rcases List.mem_cons.mp hp with h1 | h2
    · subst h1; exact le_refl n
    · exact (Nat.le_succ n).trans (ih (n + 1) p h2)

/-- Positions in an enumeration are strictly increasing. -/
theorem enumerate_pairwise_lt : ∀ (n : ℕ) (rs : List BenchmarkResult),
    (enumerate n rs).Pairwise (fun a b => a.1 < b.1) := by
  intro n rs
  induction rs generalizing n with
  | nil => exact .nil
  | cons r rs ih =>
    refine .cons ?_ (ih (n + 1))
    intro p hp
    exact Nat.lt_of_lt_of_le (Nat.lt_succ_self n) (enumerate_le_fst (n + 1) rs p hp)

/-- An enumerated pair points back at its record. -/
theorem enumerate_mem_get? : ∀ (n : ℕ) (rs : List BenchmarkResult),
    ∀ p ∈ enumerate n rs, rs.get? (p.1 - n) = some p.2 := by
  intro n rs
  induction rs generalizing n with
  | nil => intro p hp; cases hp
  | cons r rs ih =>
    intro p hp
    rcases List.mem_cons.mp hp with h1 | h2
    · subst h1; simp
    · have hle : n + 1 ≤ p.1 := enumerate_le_fst (n + 1) rs p h2
      have : p.1 - n = (p.1 - (n + 1)) + 1 := by omega
      rw [this]
      simpa using ih (n + 1) p h2

/-- Filtering an enumeration on the record part does not change how
many elements survive. -/
theorem enumerate_filter_length (pred : BenchmarkResult → Bool) :
    ∀ (n : ℕ) (rs : List BenchmarkResult),
      ((enumerate n rs).filter (fun p => pred p.2)).length = (rs.filter pred).length := by
  intro n rs
  induction rs generalizing n with
  | nil => rfl
  | cons r rs ih =>
    by_cases h : pred r
    · simp [enumerate, List.filter_cons, h, ih]
    · simp [enumerate, List.filter_cons, h, ih]

/-! ### Claim theorems -/

/-- C5: On an empty ResultSet, both the tool-output-only model and the
full-conversation model produce all-zero measured totals, baseline
totals, and savings, and a savings percent of 0, raising no exception
(the savings-percent division is guarded). -/
theorem claim5_empty_resultset_all_zero :
    estimate_token_savings [] = .ok
      { rfx_tool_calls := 0, rfx_output_tokens := 0, rfx_overhead_tokens := 0,
        rfx_total_tokens := 0, builtin_tool_calls := 0, builtin_output_tokens := 0,
        builtin_overhead_tokens := 0, builtin_total_tokens := 0,
        tool_output_savings := 0, tool_output_savings_pct := 0 } ∧
    estimate_realistic_token_savings [] = .ok
      { rfx_tool_calls := 0, rfx_user_tokens := 0, rfx_claude_reasoning := 0,
        rfx_tool_output_tokens := 0, rfx_tool_overhead := 0, rfx_claude_response := 0,
        rfx_total_tokens := 0, builtin_tool_calls := 0, builtin_user_tokens := 0,
        builtin_claude_reasoning := 0, builtin_tool_output := 0, builtin_tool_overhead := 0,
        builtin_claude_response := 0, builtin_total_tokens := 0, total_savings := 0,
        savings_pct := 0 } := by
  constructor
  · simp [estimate_token_savings, passedOf, mapE, builtin_calls_of, group_by_complexity,
          dictKeys, insertKey, CHARS_PER_TOKEN, TOOL_CALL_OVERHEAD, except_bind_ok]
  · simp [estimate_realistic_token_savings, passedOf, mapE, builtin_calls_of,
          group_by_complexity, dictKeys, insertKey, CHARS_PER_TOKEN, TOOL_CALL_OVERHEAD,
          USER_PROMPT_TOKENS, CLAUDE_REASONING_TOKENS, CLAUDE_RESPONSE_TOKENS, except_bind_ok]

/-- C7: the three-record scenario — (PASS, 100 ms, 400 bytes, Simple),
(PASS, 300 ms, 1200 bytes, Complex), (FAIL, Medium) — yields total 3,
passed 2, failed 1, success rate 200/3 (which displays as 66.67 at two
decimals), average duration 200, average output size 800, and the
stated per-tier breakdown (Simple 1/1, Medium 1/0, Complex 1/1). -/
theorem claim7_three_record_scenario :
    calculate_summary_stats sampleRS = .ok
      { total_tests := 3, passed := 2, failed := 1, success_rate := 200 / 3,
        avg_duration_ms := 200, min_duration_ms := 100, max_duration_ms := 300,
        avg_output_size_bytes := 800, total_output_size_bytes := 1600 } ∧
    |(200 : ℚ) / 3 - 6667 / 100| < 1 / 200 ∧
    print_complexity_breakdown sampleRS = .ok
      [("Simple", { total_tests := 1, passed := 1, success_rate := 100,
                    avg_duration_ms := 100, avg_output_size_bytes := 400 }),
       ("Medium", { total_tests := 1, passed := 0, success_rate := 0,
                    avg_duration_ms := 0, avg_output_size_bytes := 0 }),
       ("Complex", { total_tests := 1, passed := 1, success_rate := 100,
                     avg_duration_ms := 300, avg_output_size_bytes := 1200 })] := by
  refine ⟨?_, by norm_num [abs_lt], ?_⟩
  · simp [calculate_summary_stats, passedOf, mapE, getField, sampleRS, sampleR1, sampleR2,
          sampleR3, listMin, listMax, except_bind_ok]
    norm_num
  · simp [print_complexity_breakdown, calculate_category_stats, passedOf, mapE, getField,
          sampleRS, sampleR1, sampleR2, sampleR3, complexity_order, except_bind_ok,
          except_map_ok]

/-- C9: evaluation of the chart step's per-category average-duration
computation on a ResultSet whose single category has no passed
records: the unguarded division raises `ZeroDivisionError` instead of
completing or being skipped with a warning, contradicting the spec's
non-fatal-chart-step requirement. -/
theorem claim9_plot_divides_by_zero :
    plot_avg_durations failOnlyRS = .error "ZeroDivisionError: division by zero" := by
  simp [plot_avg_durations, group_by_category, dictKeys, insertKey, passedOf, mapE, getField,
        failOnlyRS, sampleR3, except_bind_ok]

/-- C4: for every ResultSet, the summary satisfies
`passed + failed = total`, the success rate is `passed/total*100` when
`total > 0` and `0` when `total = 0` (the division is guarded, so no
division-by-zero is raised), and the success rate always lies in
`[0, 100]`. -/
theorem claim4_summary_invariants (rs : List BenchmarkResult) (s : SummaryStats)
    (h : calculate_summary_stats rs = .ok s) :
    s.passed + s.failed = s.total_tests ∧
    (s.total_tests > 0 → s.success_rate = (s.passed : ℚ) / (s.total_tests : ℚ) * 100) ∧
    (s.total_tests = 0 → s.success_rate = 0) ∧
    0 ≤ s.success_rate ∧ s.success_rate ≤ 100 := by
  unfold calculate_summary_stats at h
  cases hd : mapE (fun r => getField "duration_ms" r.duration_ms) (passedOf rs) with
  | error e => rw [hd] at h; simp [except_bind_error] at h
  | ok ds =>
    rw [hd] at h
    cases ho : mapE (fun r => getField "output_size_bytes" r.output_size_bytes) (passedOf rs) with
    | error e => rw [ho] at h; simp [except_bind_ok, except_bind_error] at h
    | ok os =>
      rw [ho] at h
      simp only [except_bind_ok, pure, Except.pure, Except.ok.injEq] at h
      subst h
      have hle : (passedOf rs).length ≤ rs.length := List.length_filter_le _ _
      dsimp only
      refine ⟨by omega, ?_, ?_, ?_, ?_⟩
      · intro ht; rw [if_pos ht]
      · intro ht; rw [if_neg (by omega)]
      · split_ifs with ht
        · positivity
        · exact le_refl 0
      · split_ifs with ht
        · have htq : (0 : ℚ) < (rs.length : ℚ) := by exact_mod_cast ht
          have hpq : ((passedOf rs).length : ℚ) ≤ (rs.length : ℚ) := by exact_mod_cast hle
          calc ((passedOf rs).length : ℚ) / (rs.length : ℚ) * 100
              ≤ 1 * 100 := by
                apply mul_le_mul_of_nonneg_right _ (by norm_num)
                exact (div_le_one htq).mpr hpq
            _ = 100 := by norm_num
        · norm_num

/-- C8: on a ResultSet with no passed records, the summary's average,
minimum and maximum duration and its average output size are all 0,
and both the summary and the per-group statistics complete without
failing on the empty passed subset. -/
theorem claim8_empty_passed_subset (rs : List BenchmarkResult) (h : passedOf rs = []) :
    calculate_summary_stats rs = .ok
      { total_tests := rs.length, passed := 0, failed := rs.length, success_rate := 0,
        avg_duration_ms := 0, min_duration_ms := 0, max_duration_ms := 0,
        avg_output_size_bytes := 0, total_output_size_bytes := 0 } ∧
    calculate_category_stats rs = .ok
      { total_tests := rs.length, passed := 0, success_rate := 0,
        avg_duration_ms := 0, avg_output_size_bytes := 0 } := by
  constructor
  · unfold calculate_summary_stats
    rw [h]
    simp [mapE, except_bind_ok, listMin, listMax, pure, Except.pure]
  · unfold calculate_category_stats
    rw [h]
    simp [mapE, except_bind_ok, pure, Except.pure]

/-- Summary of the three-record scenario ResultSet. -/
def sampleSummary : SummaryStats :=
  { total_tests := 3, passed := 2, failed := 1, success_rate := 200 / 3,
    avg_duration_ms := 200, min_duration_ms := 100, max_duration_ms := 300,
    avg_output_size_bytes := 800, total_output_size_bytes := 1600 }

/-- Witness for C4 at the three-record scenario input. -/
theorem claim4_summary_invariants_witness :
    calculate_summary_stats sampleRS = .ok sampleSummary ∧
    (sampleSummary.passed + sampleSummary.failed = sampleSummary.total_tests ∧
     (sampleSummary.total_tests > 0 →
       sampleSummary.success_rate = (sampleSummary.passed : ℚ) / (sampleSummary.total_tests : ℚ) * 100) ∧
     (sampleSummary.total_tests = 0 → sampleSummary.success_rate = 0) ∧
     0 ≤ sampleSummary.success_rate ∧ sampleSummary.success_rate ≤ 100) := by
  have hyp : calculate_summary_stats sampleRS = .ok sampleSummary := by
    simp [calculate_summary_stats, passedOf, mapE, getField, sampleRS, sampleR1, sampleR2,
          sampleR3, sampleSummary, listMin, listMax, except_bind_ok]
    norm_num
  exact ⟨hyp, claim4_summary_invariants sampleRS sampleSummary hyp⟩

/-- Witness for C8 at the single-FAIL-record input. -/
theorem claim8_empty_passed_subset_witness :
    passedOf failOnlyRS = [] ∧
    (calculate_summary_stats failOnlyRS = .ok
       { total_tests := failOnlyRS.length, passed := 0, failed := failOnlyRS.length,
         success_rate := 0, avg_duration_ms := 0, min_duration_ms := 0, max_duration_ms := 0,
         avg_output_size_bytes := 0, total_output_size_bytes := 0 } ∧
     calculate_category_stats failOnlyRS = .ok
       { total_tests := failOnlyRS.length, passed := 0, success_rate := 0,
         avg_duration_ms := 0, avg_output_size_bytes := 0 }) := by
  have hyp : passedOf failOnlyRS = [] := by decide
  exact ⟨hyp, claim8_empty_passed_subset failOnlyRS hyp⟩

/-- C2: two passed records whose `output_size_bytes` sum to 2000, one
Simple and one Complex and nothing else, give measured output tokens
500, measured overhead 100, measured total 600, baseline calls 6.5,
baseline output tokens 900, baseline overhead 325, baseline total
1225, savings 625 and a savings percent of 62500/1225, which is within
0.1 of 51. -/
theorem claim2_tool_output_scenario (r1 r2 : BenchmarkResult) (a b : ℕ)
    (h1s : r1.status = "PASS") (h2s : r2.status = "PASS")
    (h1c : r1.complexity = "Simple") (h2c : r2.complexity = "Complex")
    (h1o : r1.output_size_bytes = some a) (h2o : r2.output_size_bytes = some b)
    (hab : a + b = 2000) :
    estimate_token_savings [r1, r2] = .ok
      { rfx_tool_calls := 2, rfx_output_tokens := 500, rfx_overhead_tokens := 100,
        rfx_total_tokens := 600, builtin_tool_calls := 13 / 2, builtin_output_tokens := 900,
        builtin_overhead_tokens := 325, builtin_total_tokens := 1225,
        tool_output_savings := 625, tool_output_savings_pct := 62500 / 1225 } ∧
    |(62500 : ℚ) / 1225 - 51| < 1 / 10 := by
  constructor
  · have hab' : ((a : ℚ) + (b : ℚ)) = 2000 := by exact_mod_cast hab
    simp [estimate_token_savings, passedOf, mapE, getField, builtin_calls_of,
          group_by_complexity, dictKeys, insertKey, complexity_multiplier,
          CHARS_PER_TOKEN, TOOL_CALL_OVERHEAD, except_bind_ok,
          h1s, h2s, h1c, h2c, h1o, h2o]
    norm_num [hab']
  · norm_num [abs_lt]

/-- Witness record for C2: PASS, Simple, 800 output bytes. -/
def scenarioA : BenchmarkResult :=
  { test_id := "S1", test_name := "scenario simple", category := "search",
    complexity := "Simple", status := "PASS",
    duration_ms := some 50, output_size_bytes := some 800, output_lines := some 20 }

/-- Witness record for C2: PASS, Complex, 1200 output bytes. -/
def scenarioB : BenchmarkResult :=
  { test_id := "S2", test_name := "scenario complex", category := "refactor",
    complexity := "Complex", status := "PASS",
    duration_ms := some 250, output_size_bytes := some 1200, output_lines := some 40 }

/-- Witness for C2 at the concrete split 800 + 1200 = 2000. -/
theorem claim2_tool_output_scenario_witness :
    (scenarioA.status = "PASS" ∧ scenarioB.status = "PASS" ∧
     scenarioA.complexity = "Simple" ∧ scenarioB.complexity = "Complex" ∧
     scenarioA.output_size_bytes = some 800 ∧ scenarioB.output_size_bytes = some 1200 ∧
     800 + 1200 = 2000) ∧
    (estimate_token_savings [scenarioA, scenarioB] = .ok
      { rfx_tool_calls := 2, rfx_output_tokens := 500, rfx_overhead_tokens := 100,
        rfx_total_tokens := 600, builtin_tool_calls := 13 / 2, builtin_output_tokens := 900,
        builtin_overhead_tokens := 325, builtin_total_tokens := 1225,
        tool_output_savings := 625, tool_output_savings_pct := 62500 / 1225 } ∧
    |(62500 : ℚ) / 1225 - 51| < 1 / 10) :=
  ⟨⟨rfl, rfl, rfl, rfl, rfl, rfl, rfl⟩,
   claim2_tool_output_scenario scenarioA scenarioB 800 1200 rfl rfl rfl rfl rfl rfl rfl⟩

/-- C1 counterexample: a single FAIL record (status FAIL, complexity
Medium) versus the empty ResultSet changes the tool-output-only
model's measured tool-call count (1 versus 0), so FAIL records do
change outputs of the token-estimation computations. -/
theorem claim1_fail_counterexample :
    Except.map (fun t => t.rfx_tool_calls) (estimate_token_savings failOnlyRS) ≠
      Except.map (fun t => t.rfx_tool_calls) (estimate_token_savings ([] : List BenchmarkResult)) := by
  decide

/-- C1 amended: FAIL records never change any output of the
full-conversation model, and in the tool-output-only model they never
change the measured or baseline output-token figures; the remaining
tool-output-only figures (tool-call counts, overheads, totals,
savings) do count FAIL records. -/
theorem claim1_fail_records_amended (rs : List BenchmarkResult) :
    estimate_realistic_token_savings rs = estimate_realistic_token_savings (passedOf rs) ∧
    Except.map (fun t => (t.rfx_output_tokens, t.builtin_output_tokens))
        (estimate_token_savings rs) =
      Except.map (fun t => (t.rfx_output_tokens, t.builtin_output_tokens))
        (estimate_token_savings (passedOf rs)) := by
  constructor
  · simp only [estimate_realistic_token_savings, passedOf_idem]
  · cases hm : mapE (fun r => getField "output_size_bytes" r.output_size_bytes) (passedOf rs) with
    | error e =>
      unfold estimate_token_savings
      rw [passedOf_idem, hm]
      simp [except_bind_error, except_map_error]
    | ok outs =>
      unfold estimate_token_savings
      rw [passedOf_idem, hm]
      simp [except_bind_ok, except_map_ok]

/-- Collapse a `Forall₂` whose relation determines the left element
from the right one. -/
theorem forall₂_map_eq {α β : Type} {R : α → β → Prop} (f : β → α)
    (hf : ∀ a b, R a b → f b = a) :
    ∀ {l : List α} {l' : List β}, List.Forall₂ R l l' → l'.map f = l := by
  intro l l' h
  induction h with
  | nil => rfl
  | cons hxy _ ih => simp [hf _ _ hxy, ih]

/-- C6: the complexity breakdown lists exactly the tiers of the fixed
order Simple, Medium, Complex that occur in the ResultSet, in that
order; every key it shows is one of the three fixed tiers, so any
group with an unrecognized complexity key is silently omitted. -/
theorem claim6_fixed_tier_order (rs : List BenchmarkResult)
    (out : List (String × CategoryStats))
    (h : print_complexity_breakdown rs = .ok out) :
    out.map Prod.fst =
      complexity_order.filter (fun c => ¬(rs.filter (fun r => r.complexity == c)).isEmpty) ∧
    ∀ k ∈ out.map Prod.fst, k ∈ complexity_order := by
  unfold print_complexity_breakdown at h
  have h2 := mapE_forall₂ h
  have hfst : ∀ (c : String) (p : String × CategoryStats),
      Except.map (fun s => (c, s))
        (calculate_category_stats (rs.filter (fun r => r.complexity == c))) = .ok p →
      p.1 = c := by
    intro c p hp
    cases hs : calculate_category_stats (rs.filter (fun r => r.complexity == c)) with
    | error e => rw [hs] at hp; simp [except_map_error] at hp
    | ok s =>
      rw [hs] at hp
      simp only [except_map_ok, Except.ok.injEq] at hp
      rw [← hp]
  have hkeys := forall₂_map_eq Prod.fst hfst h2
  refine ⟨hkeys, ?_⟩
  intro k hk
  rw [hkeys] at hk
  exact (List.mem_filter.mp hk).1

/-- ResultSet for the C6 witness: one Simple record, one record with
the unrecognized complexity Exotic, one Medium record. -/
def mixedTierRS : List BenchmarkResult := [sampleR1, exoticRec, sampleR3]

/-- Breakdown of `mixedTierRS`: the Exotic group is omitted and no
error is raised even though its record has no numeric fields. -/
def mixedTierBreakdown : List (String × CategoryStats) :=
  [("Simple", { total_tests := 1, passed := 1, success_rate := 100,
                avg_duration_ms := 100, avg_output_size_bytes := 400 }),
   ("Medium", { total_tests := 1, passed := 0, success_rate := 0,
                avg_duration_ms := 0, avg_output_size_bytes := 0 })]

/-- Witness for C6 at a ResultSet containing an unrecognized tier. -/
theorem claim6_fixed_tier_order_witness :
    print_complexity_breakdown mixedTierRS = .ok mixedTierBreakdown ∧
    (mixedTierBreakdown.map Prod.fst =
       complexity_order.filter
         (fun c => ¬(mixedTierRS.filter (fun r => r.complexity == c)).isEmpty) ∧
     ∀ k ∈ mixedTierBreakdown.map Prod.fst, k ∈ complexity_order) := by
  have hyp : print_complexity_breakdown mixedTierRS = .ok mixedTierBreakdown := by
    simp [print_complexity_breakdown, calculate_category_stats, passedOf, mapE, getField,
          mixedTierRS, mixedTierBreakdown, sampleR1, exoticRec, sampleR3, complexity_order,
          except_bind_ok, except_map_ok]
  exact ⟨hyp, claim6_fixed_tier_order mixedTierRS mixedTierBreakdown hyp⟩

/-- C10: every statistics and token-estimation computation filters to
the passed subset before reading `duration_ms` or
`output_size_bytes`, so each is total (no key-access error) on any
ResultSet in which only the PASS records carry those fields — FAIL
records may lack them entirely. -/
theorem claim10_pass_filter_before_field_access (rs : List BenchmarkResult)
    (h : ∀ r ∈ rs, r.status = "PASS" → r.duration_ms.isSome ∧ r.output_size_bytes.isSome) :
    (∃ s, calculate_summary_stats rs = .ok s) ∧
    (∃ s, calculate_category_stats rs = .ok s) ∧
    (∃ t, estimate_token_savings rs = .ok t) ∧
    (∃ u, estimate_realistic_token_savings rs = .ok u) := by
  have hd : ∀ r ∈ passedOf rs, ∃ y,
      (fun r => getField "duration_ms" r.duration_ms) r = (Except.ok y : Except String ℚ) := by
    intro r hr
    obtain ⟨hrs, hstat⟩ := List.mem_filter.mp hr
    obtain ⟨v, hv⟩ := Option.isSome_iff_exists.mp (h r hrs (by simpa using hstat)).1
    exact ⟨v, by simp [getField, hv]⟩
  have ho : ∀ r ∈ passedOf rs, ∃ y,
      (fun r => getField "output_size_bytes" r.output_size_bytes) r = (Except.ok y : Except String ℕ) := by
    intro r hr
    obtain ⟨hrs, hstat⟩ := List.mem_filter.mp hr
    obtain ⟨v, hv⟩ := Option.isSome_iff_exists.mp (h r hrs (by simpa using hstat)).2
    exact ⟨v, by simp [getField, hv]⟩
  obtain ⟨ds, hds⟩ := mapE_ok_of_forall hd
  obtain ⟨os, hos⟩ := mapE_ok_of_forall ho
  refine ⟨?_, ?_, ?_, ?_⟩
  · unfold calculate_summary_stats
    simp only [hds, hos, except_bind_ok]
    exact ⟨_, rfl⟩
  · unfold calculate_category_stats
    simp only [hds, hos, except_bind_ok]
    exact ⟨_, rfl⟩
  · unfold estimate_token_savings
    simp only [hos, except_bind_ok]
    exact ⟨_, rfl⟩
  · unfold estimate_realistic_token_savings
    simp only [hos, except_bind_ok]
    exact ⟨_, rfl⟩

/-- Witness for C10 at the three-record scenario, whose FAIL record
carries no numeric fields at all. -/
theorem claim10_pass_filter_before_field_access_witness :
    (∀ r ∈ sampleRS, r.status = "PASS" → r.duration_ms.isSome ∧ r.output_size_bytes.isSome) ∧
    ((∃ s, calculate_summary_stats sampleRS = .ok s) ∧
     (∃ s, calculate_category_stats sampleRS = .ok s) ∧
     (∃ t, estimate_token_savings sampleRS = .ok t) ∧
     (∃ u, estimate_realistic_token_savings sampleRS = .ok u)) := by
  have hyp : ∀ r ∈ sampleRS, r.status = "PASS" →
      r.duration_ms.isSome ∧ r.output_size_bytes.isSome := by decide
  exact ⟨hyp, claim10_pass_filter_before_field_access sampleRS hyp⟩

/-- C3: a successful ranking returns exactly `min top_n passedCount`
records, each a passed record of the ResultSet at its recorded
position whose attached key is its metric value, ordered by metric
descending with ties in strictly increasing original position (stable
sort), and re-running the ranking on the same input yields the
identical result. -/
theorem claim3_ranking_select (key : BenchmarkResult → Option ℚ) (results : List BenchmarkResult)
    (top_n : ℕ) (out : List ((ℕ × BenchmarkResult) × ℚ))
    (h : rank_passed key results top_n = .ok out) :
    out.length = min top_n (passedOf results).length ∧
    (∀ p ∈ out, p.1.2.status = "PASS" ∧ key p.1.2 = some p.2 ∧
       results.get? p.1.1 = some p.1.2) ∧
    out.Pairwise (fun a b => b.2 ≤ a.2 ∧ (a.2 = b.2 → a.1.1 < b.1.1)) ∧
    rank_passed key results top_n = rank_passed key results top_n := by
  unfold rank_passed at h
  cases hm : mapE (fun p => Except.map (fun k => (p, k)) (getField "sort key" (key p.2)))
      ((enumerate 0 results).filter (fun p => p.2.status == "PASS")) with
  | error e => rw [hm] at h; simp at h
  | ok keyed =>
    rw [hm] at h
    simp only [Except.ok.injEq] at h
    subst h
    have F2 := mapE_forall₂ hm
    have hR : ∀ (p : ℕ × BenchmarkResult) (q : (ℕ × BenchmarkResult) × ℚ),
        Except.map (fun k => (p, k)) (getField "sort key" (key p.2)) = .ok q →
        q.1 = p ∧ key p.2 = some q.2 := by
      intro p q hq
      cases hk : key p.2 with
      | none => rw [hk] at hq; simp [getField, except_map_error] at hq
      | some k =>
        rw [hk] at hq
        simp only [getField, except_map_ok, Except.ok.injEq] at hq
        subst hq
        exact ⟨rfl, rfl⟩
    constructor
    · have h1 : keyed.length =
          ((enumerate 0 results).filter (fun p => p.2.status == "PASS")).length :=
        F2.length_eq.symm
      have h2 : (List.insertionSort rankRel keyed).length = keyed.length :=
        (List.perm_insertionSort rankRel keyed).length_eq
      have h3 : ((enumerate 0 results).filter (fun p => p.2.status == "PASS")).length =
          (passedOf results).length :=
        enumerate_filter_length (fun r => r.status == "PASS") 0 results
      rw [List.length_take, h2, h1, h3]
    refine ⟨?_, ?_, rfl⟩
    · intro p hp
      have hpsort : p ∈ List.insertionSort rankRel keyed := List.take_subset _ _ hp
      have hpkeyed : p ∈ keyed := (List.perm_insertionSort rankRel keyed).mem_iff.mp hpsort
      obtain ⟨x, hx, hr⟩ := forall₂_mem_right F2 p hpkeyed
      obtain ⟨hq1, hq2⟩ := hR x p hr
      obtain ⟨hxe, hxs⟩ := List.mem_filter.mp hx
      subst hq1
      refine ⟨by simpa using hxs, hq2, ?_⟩
      have := enumerate_mem_get? 0 results p.1 hxe
      simpa using this
    · have hsorted : (List.insertionSort rankRel keyed).Pairwise rankRel :=
        List.sorted_insertionSort rankRel keyed
      have htake : (List.take top_n (List.insertionSort rankRel keyed)).Pairwise rankRel :=
        hsorted.sublist (List.take_sublist _ _)
      have hidx : ((enumerate 0 results).filter (fun p => p.2.status == "PASS")).Pairwise
          (fun a b => a.1 < b.1) :=
        (enumerate_pairwise_lt 0 results).filter _
      have hkeyedidx : keyed.Pairwise (fun a b => a.1.1 < b.1.1) := by
        refine forall₂_pairwise ?_ F2 hidx
        intro a a' b b' ha hb hab
        rw [(hR a a' ha).1, (hR b b' hb).1]
        exact hab
      have hsortne : (List.insertionSort rankRel keyed).Pairwise
          (fun a b => a.1.1 ≠ b.1.1) := by
        refine ((List.perm_insertionSort rankRel keyed).pairwise_iff ?_).mpr
          (hkeyedidx.imp ?_)
        · intro x y hxy
          exact hxy.symm
        · intro a b hab
          exact Nat.ne_of_lt hab
      have htakene : (List.take top_n (List.insertionSort rankRel keyed)).Pairwise
          (fun a b => a.1.1 ≠ b.1.1) :=
        hsortne.sublist (List.take_sublist _ _)
      refine (htake.and htakene).imp ?_
      intro a b hab
      obtain ⟨hrel, hne⟩ := hab
      rcases hrel with hlt | ⟨heq, hle⟩
      · refine ⟨le_of_lt hlt, ?_⟩
        intro heq2
        rw [heq2] at hlt
        exact absurd hlt (lt_irrefl _)
      · exact ⟨le_of_eq heq.symm, fun _ => lt_of_le_of_ne hle hne⟩

/-- Ranking output for the C3 witness: top 1 by duration on the
three-record scenario is the Complex record at position 1. -/
def rankedTop1 : List ((ℕ × BenchmarkResult) × ℚ) := [((1, sampleR2), 300)]

/-- Witness for C3 at the three-record scenario, metric duration,
`top_n = 1`. -/
theorem claim3_ranking_select_witness :
    rank_passed (fun r => r.duration_ms) sampleRS 1 = .ok rankedTop1 ∧
    (rankedTop1.length = min 1 (passedOf sampleRS).length ∧
     (∀ p ∈ rankedTop1, p.1.2.status = "PASS" ∧ (fun r => r.duration_ms) p.1.2 = some p.2 ∧
        sampleRS.get? p.1.1 = some p.1.2) ∧
     rankedTop1.Pairwise (fun a b => b.2 ≤ a.2 ∧ (a.2 = b.2 → a.1.1 < b.1.1)) ∧
     rank_passed (fun r => r.duration_ms) sampleRS 1 = rank_passed (fun r => r.duration_ms) sampleRS 1) := by
  have hyp : rank_passed (fun r => r.duration_ms) sampleRS 1 = .ok rankedTop1 := by decide
  exact ⟨hyp, claim3_ranking_select (fun r => r.duration_ms) sampleRS 1 rankedTop1 hyp⟩
